import Mathlib

/-!
Shallow embedding of the Key Transparency (KT) client core of
`rust/net/src/keytrans.rs`.

Modelling conventions:
* Byte strings are `List Nat` (each element a byte value).
* `SystemTime` instants are `Nat`.
* Fallible Rust functions returning `Result<T, Error>` become
  `Except Error T`.
* External collaborators (the chat transport, the JSON / base64 /
  protobuf codecs, the identity-key parser, and the cryptographic
  primitive verifier `KeyTransparency`) are modelled as function-valued
  parameters carried in structures (`Codec`, `KeyTransparency`, the
  `chat` field of `Kt`): the façade treats them as opaque, and every
  claim below quantifies over them.
* The `HashMap<Vec<u8>, MonitoringData>` used by `monitor` is modelled
  as an association list; all keys inserted by the façade are distinct
  (they carry distinct single-byte domain-separation tags), so
  first-match lookup/removal agrees with the hash-map semantics.
-/

namespace Keytrans

abbrev Bytes := List Nat

/-- `TreeHead`: size, timestamp and signature of a signed tree head. -/
structure TreeHead where
  tree_size : Nat
  timestamp : Nat
  signature : Bytes
deriving DecidableEq, Repr

/-- `LastTreeHead = (TreeHead, 32-byte root hash)`. -/
abbrev LastTreeHead := TreeHead × Bytes

/-- `FullTreeHead`: a tree head plus consistency proofs to the stored
"last" head and to the "distinguished" head. -/
structure FullTreeHead where
  tree_head : Option TreeHead
  last : List Bytes
  distinguished : List Bytes
deriving DecidableEq, Repr

/-- ACI: 16-byte service id (`service_id_binary` is its raw binary form). -/
structure Aci where
  service_id_binary : Bytes
deriving DecidableEq, Repr

/-- E164 phone number, displayed as a leading '+' and decimal digits. -/
structure E164 where
  number : Nat
deriving DecidableEq, Repr

/-- Type-safe wrapper for a byte slice representing a username hash. -/
structure UsernameHash where
  bytes : Bytes
deriving DecidableEq, Repr

/-- Modelled from the spec (§3.2, `libsignal_keytrans::MonitoringData` is
not under src/): per-identity monitoring state
`{index, pos, ptrs, owned}`. -/
structure MonitoringData where
  index : Bytes
  pos : Nat
  ptrs : List (Nat × Bytes)
  owned : Bool
deriving DecidableEq, Repr

instance : Inhabited MonitoringData := ⟨⟨[], 0, [], false⟩⟩

/-- Modelled from the spec (§4.7 step 1, the method itself lives in
`libsignal_keytrans`): the log position reported for a monitor key. -/
def MonitoringData.latest_log_position (m : MonitoringData) : Nat :=
  m.pos

/-- Modelled from the spec (§3.2, `libsignal_keytrans::AccountData` is not
under src/): ACI data always present, E.164 / username-hash optional. -/
structure AccountData where
  aci : MonitoringData
  e164 : Option MonitoringData
  username_hash : Option MonitoringData
  last_tree_head : LastTreeHead
deriving DecidableEq, Repr

/-- Opaque condensed per-key search response; the façade never looks
inside it, only the primitive verifier does. -/
structure CondensedTreeSearchResponse where
  blob : Nat
deriving DecidableEq, Repr

/-- Opaque per-key monitor proof; the façade never looks inside it. -/
structure MonitorProof where
  blob : Nat
deriving DecidableEq, Repr

/-- `SlimSearchRequest::new(search_key)`. -/
structure SlimSearchRequest where
  search_key : Bytes
deriving DecidableEq, Repr

/-- `FullSearchResponse::new(condensed, &tree_head)`. -/
structure FullSearchResponse where
  search : CondensedTreeSearchResponse
  tree_head : FullTreeHead
deriving DecidableEq, Repr

/-- `SearchContext` passed to the primitive `verify_search`. -/
structure SearchContext where
  last_tree_head : Option LastTreeHead
  last_distinguished_tree_head : Option LastTreeHead
  data : Option MonitoringData
deriving DecidableEq, Repr

/-- State update returned by a verified search
(`LocalStateUpdate` with optional monitoring data). -/
structure SearchStateUpdate where
  tree_head : TreeHead
  tree_root : Bytes
  monitoring_data : Option MonitoringData
deriving DecidableEq, Repr

/-- `VerifiedSearchResult`: the verified leaf value plus state update. -/
structure VerifiedSearchResult where
  value : Bytes
  state_update : SearchStateUpdate
deriving DecidableEq, Repr

/-- `MonitorKey` built by the façade for each identity. -/
structure MonitorKey where
  search_key : Bytes
  entry_position : Nat
  commitment_index : Bytes
deriving DecidableEq, Repr

/-- `MonitorRequest` handed to the primitive `verify_monitor`. -/
structure MonitorRequest where
  keys : List MonitorKey
  consistency : Option Nat
deriving DecidableEq, Repr

/-- `MonitorResponse` handed to the primitive `verify_monitor`. -/
structure MonitorResponse where
  tree_head : Option FullTreeHead
  proofs : List MonitorProof
  inclusion : List Bytes
deriving DecidableEq, Repr

/-- `MonitorContext` handed to the primitive `verify_monitor`; `data`
models the `HashMap<Vec<u8>, MonitoringData>` as an association list. -/
structure MonitorContext where
  last_tree_head : Option LastTreeHead
  last_distinguished_tree_head : LastTreeHead
  data : List (Bytes × MonitoringData)
deriving DecidableEq, Repr

/-- State update returned by a verified monitor (`LocalStateUpdate` with
a map of monitoring data, modelled as an association list). -/
structure MonitorStateUpdate where
  tree_head : TreeHead
  tree_root : Bytes
  monitoring_data : List (Bytes × MonitoringData)
deriving DecidableEq, Repr

/-- Opaque `libsignal_keytrans::Error` of the primitive verifier. -/
structure VerifyError where
  code : Nat
deriving DecidableEq, Repr

/-- Opaque `chat::ChatServiceError` of the transport. -/
structure ChatServiceError where
  code : Nat
deriving DecidableEq, Repr

/-- The error enum of `keytrans.rs`. -/
inductive Error where
  | chatServiceError (e : ChatServiceError)
  | requestFailed (status : Nat)
  | verificationFailed (e : VerifyError)
  | invalidResponse (msg : String)
  | invalidRequest (msg : String)
  | decodingFailed
deriving DecidableEq, Repr

/-- The primitive verifier collaborator (`libsignal_keytrans`,
consumed per spec §6.2): both operations are opaque functions. -/
structure KeyTransparency where
  verify_search : SlimSearchRequest → FullSearchResponse → SearchContext →
    Bool → Nat → Except VerifyError VerifiedSearchResult
  verify_monitor : MonitorRequest → MonitorResponse → MonitorContext →
    Nat → Except VerifyError MonitorStateUpdate

/-! ### Search-key and chat-value encodings (`SearchKey`, `AsChatValue`) -/

/-- ASCII decimal digits of a natural number. -/
def natDecimalDigitBytes (n : Nat) : Bytes :=
  (Nat.toDigits 10 n).map Char.toNat

/-- `E164::to_string` as bytes: leading '+' (0x2b) then decimal digits. -/
def E164.chat_value_bytes (e : E164) : Bytes :=
  0x2b :: natDecimalDigitBytes e.number

/-- `SEARCH_KEY_PREFIX_ACI = b"a"`; `impl SearchKey for Aci`. -/
def Aci.as_search_key (a : Aci) : Bytes :=
  0x61 :: a.service_id_binary

/-- `SEARCH_KEY_PREFIX_E164 = b"n"`; `impl SearchKey for E164`:
`"n"` followed by `self.to_string().as_bytes()`. -/
def E164.as_search_key (e : E164) : Bytes :=
  0x6e :: e.chat_value_bytes

/-- `SEARCH_KEY_PREFIX_USERNAME_HASH = b"u"`;
`impl SearchKey for UsernameHash`. -/
def UsernameHash.as_search_key (u : UsernameHash) : Bytes :=
  0x75 :: u.bytes

/-! ### Wire codec collaborators and raw requests/responses -/

/-- Raw (all-optional) protobuf `ChatSearchResponse`. -/
structure ChatSearchResponse where
  tree_head : Option FullTreeHead
  aci : Option CondensedTreeSearchResponse
  e164 : Option CondensedTreeSearchResponse
  username_hash : Option CondensedTreeSearchResponse
deriving DecidableEq, Repr

/-- Raw (all-optional) protobuf `ChatMonitorResponse`. -/
structure ChatMonitorResponse where
  tree_head : Option FullTreeHead
  aci : Option MonitorProof
  e164 : Option MonitorProof
  username_hash : Option MonitorProof
  inclusion : List Bytes
deriving DecidableEq, Repr

/-- Raw protobuf `ChatDistinguishedResponse`. -/
structure ChatDistinguishedResponse where
  tree_head : Option FullTreeHead
  distinguished : Option CondensedTreeSearchResponse
deriving DecidableEq, Repr

/-- Outbound JSON body of `RawChatSearchRequest`. -/
structure RawChatSearchRequest where
  aci : String
  aci_identity_key : String
  e164 : Option String
  username_hash : Option String
  unidentified_access_key : Option String
  last_tree_head_size : Option Nat
  distinguished_tree_head_size : Nat
deriving DecidableEq, Repr

/-- One `ValueMonitor` entry of the outbound monitor request. -/
structure ValueMonitor where
  value : String
  entry_position : Nat
  commitment_index : String
deriving DecidableEq, Repr

/-- Outbound JSON body of `RawChatMonitorRequest`. -/
structure RawChatMonitorRequest where
  aci : ValueMonitor
  e164 : Option ValueMonitor
  username_hash : Option ValueMonitor
  last_non_distinguished_tree_head_size : Nat
  last_distinguished_tree_head_size : Nat
deriving DecidableEq, Repr

/-- `RawChatDistinguishedRequest`. -/
structure RawChatDistinguishedRequest where
  last_tree_head_size : Option Nat
deriving DecidableEq, Repr

/-- `chat::Request`. -/
structure ChatRequest where
  method : String
  path : String
  headers : List (String × String)
  body : Option Bytes
deriving DecidableEq, Repr

/-- `chat::Response` (status plus optional body). -/
structure ChatResponse where
  status : Nat
  body : Option Bytes
deriving DecidableEq, Repr

/-- JSON envelope `{ "serializedResponse": ... }`. -/
structure RawChatSerializedResponse where
  serialized_response : String
deriving DecidableEq, Repr

/-- External serialization/parsing collaborators (serde_json, the base64
engines, prost decoders, and the `libsignal_protocol` / `libsignal_core`
value parsers), opaque to the façade. -/
structure Codec where
  json_parse : Bytes → Option RawChatSerializedResponse
  b64_decode : String → Option Bytes
  b64_encode : Bytes → String
  b64_nopad_encode : Bytes → String
  b64_url_nopad_encode : Bytes → String
  proto_decode_search : Bytes → Option ChatSearchResponse
  proto_decode_monitor : Bytes → Option ChatMonitorResponse
  proto_decode_distinguished : Bytes → Option ChatDistinguishedResponse
  json_encode_search : RawChatSearchRequest → Bytes
  json_encode_monitor : RawChatMonitorRequest → Bytes
  decode_identity_key : Bytes → Option Bytes
  aci_service_id_string : Aci → String

/-- `IdentityKey` as held in a `SearchResult` (opaque curve-point bytes,
produced by `Codec.decode_identity_key`). -/
structure IdentityKey where
  bytes : Bytes
deriving DecidableEq, Repr

/-- `PublicKey` of `libsignal_protocol`; `serialize` yields its bytes. -/
structure PublicKey where
  serialized : Bytes
deriving DecidableEq, Repr

/-- `AsChatValue` for ACI: the canonical service-id string. -/
def Aci.as_chat_value (c : Codec) (a : Aci) : String :=
  c.aci_service_id_string a

/-- `AsChatValue` for E164: its display string. -/
def E164.as_chat_value (e : E164) : String :=
  String.mk ('+' :: Nat.toDigits 10 e.number)

/-- `AsChatValue` for UsernameHash: URL-safe base64 without padding. -/
def UsernameHash.as_chat_value (c : Codec) (u : UsernameHash) : String :=
  c.b64_url_nopad_encode u.bytes

/-- `common_headers()`. -/
def common_headers : List (String × String) :=
  [("content-type", "application/json"), ("accept", "application/json")]

/-- `RawChatSearchRequest::new`. -/
def RawChatSearchRequest.new (c : Codec) (aci : Aci)
    (aci_identity_key : PublicKey) (e164 : Option (E164 × Bytes))
    (username_hash : Option UsernameHash) (last_tree_head_size : Option Nat)
    (distinguished_tree_head_size : Nat) : RawChatSearchRequest :=
  { aci := aci.as_chat_value c
    aci_identity_key := c.b64_encode aci_identity_key.serialized
    e164 := e164.map fun x => x.1.as_chat_value
    username_hash := username_hash.map fun x => x.as_chat_value c
    unidentified_access_key := e164.map fun x => c.b64_encode x.2
    last_tree_head_size := last_tree_head_size
    distinguished_tree_head_size := distinguished_tree_head_size }

/-- `impl From<RawChatSearchRequest> for chat::Request`. -/
def RawChatSearchRequest.to_chat_request (c : Codec)
    (r : RawChatSearchRequest) : ChatRequest :=
  { method := "POST"
    path := "/v1/key-transparency/search"
    headers := common_headers
    body := some (c.json_encode_search r) }

/-- `impl From<RawChatDistinguishedRequest> for chat::Request`
(GET with optional `lastTreeHeadSize` query). -/
def RawChatDistinguishedRequest.to_chat_request
    (r : RawChatDistinguishedRequest) : ChatRequest :=
  let query_string :=
    match r.last_tree_head_size with
    | some n => "lastTreeHeadSize=" ++ toString n
    | none => ""
  { method := "GET"
    path := "/v1/key-transparency/distinguished?" ++ query_string
    headers := common_headers
    body := none }

/-- `impl From<RawChatMonitorRequest> for chat::Request`. -/
def RawChatMonitorRequest.to_chat_request (c : Codec)
    (r : RawChatMonitorRequest) : ChatRequest :=
  { method := "POST"
    path := "/v1/key-transparency/monitor"
    headers := common_headers
    body := some (c.json_encode_monitor r) }

/-- `impl TryFrom<chat::Response> for RawChatSerializedResponse`:
missing body, then JSON parse. -/
def RawChatSerializedResponse.try_from (c : Codec) (response : ChatResponse) :
    Except Error RawChatSerializedResponse :=
  match response.body with
  | none => .error (.invalidResponse "missing body")
  | some body =>
    match c.json_parse body with
    | none => .error (.invalidResponse "invalid JSON")
    | some r => .ok r

/-- `decode_response`: base64-no-pad, then protobuf decode. -/
def decode_response {R : Type} (c : Codec) (proto_decode : Bytes → Option R)
    (b64 : String) : Except Error R :=
  match c.b64_decode b64 with
  | none => .error (.invalidResponse "invalid base64")
  | some proto_bytes =>
    match proto_decode proto_bytes with
    | none => .error (.invalidResponse "invalid search response protobuf encoding")
    | some r => .ok r

/-! ### Typed response normalization -/

/-- `TypedSearchResponse`: proper optionality of sub-messages. -/
structure TypedSearchResponse where
  full_tree_head : FullTreeHead
  aci_search_response : CondensedTreeSearchResponse
  e164_search_response : Option CondensedTreeSearchResponse
  username_hash_search_response : Option CondensedTreeSearchResponse
deriving DecidableEq, Repr

/-- `TypedSearchResponse::from_untyped`. -/
def TypedSearchResponse.from_untyped (require_e164 : Bool)
    (require_username_hash : Bool) (response : ChatSearchResponse) :
    Except Error TypedSearchResponse :=
  if require_e164 != response.e164.isSome
      || require_username_hash != response.username_hash.isSome then
    .error (.invalidResponse "request/response optionality mismatch")
  else
    match response.tree_head with
    | none => .error (.invalidResponse "missing tree head")
    | some full_tree_head =>
      match response.aci with
      | none => .error (.invalidResponse "missing ACI search response")
      | some aci_search_response =>
        .ok { full_tree_head := full_tree_head
              aci_search_response := aci_search_response
              e164_search_response := response.e164
              username_hash_search_response := response.username_hash }

/-- `TypedMonitorResponse`: proper optionality of sub-messages. -/
structure TypedMonitorResponse where
  tree_head : FullTreeHead
  aci : MonitorProof
  e164 : Option MonitorProof
  username_hash : Option MonitorProof
  inclusion : List Bytes
deriving DecidableEq, Repr

/-- `TypedMonitorResponse::from_untyped`. -/
def TypedMonitorResponse.from_untyped (require_e164 : Bool)
    (require_username_hash : Bool) (response : ChatMonitorResponse) :
    Except Error TypedMonitorResponse :=
  if require_e164 != response.e164.isSome
      || require_username_hash != response.username_hash.isSome then
    .error (.invalidResponse "request/response optionality mismatch")
  else
    match response.tree_head with
    | none => .error (.invalidResponse "missing tree head")
    | some tree_head =>
      match response.aci with
      | none => .error (.invalidResponse "missing ACI monitor proof")
      | some aci =>
        .ok { tree_head := tree_head
              aci := aci
              e164 := response.e164
              username_hash := response.username_hash
              inclusion := response.inclusion }

/-! ### Verified value extraction (`SearchValue`) -/

/-- `SEARCH_VALUE_PREFIX`: 0x00 is the current version byte. -/
def SEARCH_VALUE_VERSION_BYTE : Nat := 0x00

/-- `SearchValue`: a validated raw directory value. -/
structure SearchValue where
  raw : Bytes
deriving DecidableEq, Repr

/-- `impl TryFrom<&VerifiedSearchResult> for SearchValue`: the first byte
must be the version byte 0x00. -/
def SearchValue.try_from (result : VerifiedSearchResult) :
    Except Error SearchValue :=
  if result.value.head? = some SEARCH_VALUE_VERSION_BYTE then
    .ok { raw := result.value }
  else
    .error (.invalidResponse "bad value format")

/-- `SearchValue::payload`: the raw value with the version byte stripped. -/
def SearchValue.payload (v : SearchValue) : Bytes :=
  v.raw.drop 1

/-- Modelled from the spec (§3.3; `Aci::parse_from_service_id_binary`
lives in `libsignal_core`): an ACI payload is exactly 16 bytes. -/
def Aci.parse_from_service_id_binary (bytes : Bytes) : Option Aci :=
  if bytes.length = 16 then some { service_id_binary := bytes } else none

/-- `impl TryFrom<SearchValue> for Aci`. -/
def SearchValue.to_aci (v : SearchValue) : Except Error Aci :=
  match Aci.parse_from_service_id_binary v.payload with
  | none => .error (.invalidResponse "bad ACI")
  | some aci => .ok aci

/-- `impl TryFrom<SearchValue> for IdentityKey` (decoding delegated to
the opaque `Codec.decode_identity_key`). -/
def SearchValue.to_identity_key (c : Codec) (v : SearchValue) :
    Except Error IdentityKey :=
  match c.decode_identity_key v.payload with
  | none => .error (.invalidResponse "bad identity key")
  | some bytes => .ok { bytes := bytes }

/-- `extract_value_as::<T>`, generic over the target parser. -/
def extract_value_as {T : Type} (parse : SearchValue → Except Error T)
    (result : VerifiedSearchResult) : Except Error T :=
  match SearchValue.try_from result with
  | .error e => .error e
  | .ok v => parse v

/-! ### Verification façade -/

/-- Modelled from the spec (§4.4 item 2;
`VerifiedSearchResult::are_all_roots_equal` lives in
`libsignal_keytrans`): the Merkle tree root bound to each present result
must be byte-equal to this result's root. -/
def VerifiedSearchResult.are_all_roots_equal (r : VerifiedSearchResult)
    (others : List (Option VerifiedSearchResult)) : Bool :=
  others.all fun o =>
    match o with
    | none => true
    | some r2 => r2.state_update.tree_root == r.state_update.tree_root

/-- `both_or_neither`. -/
def both_or_neither {T U : Type} (a : Option T) (b : Option U)
    (msg : String) : Except Error (Option (T × U)) :=
  match a, b with
  | some a, some b => .ok (some (a, b))
  | none, none => .ok none
  | none, some _ => .error (.invalidResponse msg)
  | some _, none => .error (.invalidResponse msg)

/-- `verify_single_search_response`: one call into the primitive
verifier with the include-identity-key flag set to `true`. -/
def verify_single_search_response (kt : KeyTransparency) (search_key : Bytes)
    (response : CondensedTreeSearchResponse)
    (monitoring_data : Option MonitoringData) (full_tree_head : FullTreeHead)
    (last_tree_head : Option LastTreeHead)
    (last_distinguished_tree_head : Option LastTreeHead) (now : Nat) :
    Except Error VerifiedSearchResult :=
  match kt.verify_search { search_key := search_key }
      { search := response, tree_head := full_tree_head }
      { last_tree_head := last_tree_head
        last_distinguished_tree_head := last_distinguished_tree_head
        data := monitoring_data }
      true now with
  | .error e => .error (.verificationFailed e)
  | .ok result => .ok result

/-- The step chaining `both_or_neither`, the optional
`verify_single_search_response` call, and the transpose, for one optional
identity of `verify_chat_search_response`. -/
def verify_optional_search_response (kt : KeyTransparency)
    (search_key : Option Bytes) (response : Option CondensedTreeSearchResponse)
    (msg : String) (monitoring_data : Option MonitoringData)
    (full_tree_head : FullTreeHead) (last_tree_head : Option LastTreeHead)
    (last_distinguished_tree_head : Option LastTreeHead) (now : Nat) :
    Except Error (Option VerifiedSearchResult) :=
  match both_or_neither search_key response msg with
  | .error e => .error e
  | .ok none => .ok none
  | .ok (some (key, resp)) =>
    match verify_single_search_response kt key resp monitoring_data
        full_tree_head last_tree_head last_distinguished_tree_head now with
    | .error e => .error e
    | .ok r => .ok (some r)

/-- The `match stored_account_data` destructuring at the start of
`verify_chat_search_response`. -/
def unpack_account_data (stored : Option AccountData) :
    Option MonitoringData × Option MonitoringData × Option MonitoringData ×
      Option LastTreeHead :=
  match stored with
  | none => (none, none, none, none)
  | some acc => (some acc.aci, acc.e164, acc.username_hash, some acc.last_tree_head)

/-- Stored (protobuf) form of a tree head. -/
structure StoredTreeHead where
  tree_head : Option TreeHead
  root : Bytes
deriving DecidableEq, Repr

/-- Stored (protobuf) form of monitoring data. -/
structure StoredMonitoringData where
  index : Bytes
  pos : Nat
  ptrs : List (Nat × Bytes)
  owned : Bool
deriving DecidableEq, Repr

/-- `StoredMonitoringData::from(MonitoringData)`. -/
def StoredMonitoringData.from_monitoring_data (m : MonitoringData) :
    StoredMonitoringData :=
  { index := m.index, pos := m.pos, ptrs := m.ptrs, owned := m.owned }

/-- Stored (protobuf) form of account data. -/
structure StoredAccountData where
  aci : Option StoredMonitoringData
  e164 : Option StoredMonitoringData
  username_hash : Option StoredMonitoringData
  last_tree_head : Option StoredTreeHead
deriving DecidableEq, Repr

/-- Result of a `search` call. -/
structure SearchResult where
  aci_identity_key : IdentityKey
  aci_for_e164 : Option Aci
  aci_for_username_hash : Option Aci
  timestamp : Nat
  account_data : StoredAccountData
deriving DecidableEq, Repr

/-- The `e164_result.as_ref().map(extract_value_as::<Aci>).transpose()?`
step of `verify_chat_search_response`. -/
def extract_optional_aci (r : Option VerifiedSearchResult) :
    Except Error (Option Aci) :=
  match r with
  | none => .ok none
  | some r =>
    match extract_value_as SearchValue.to_aci r with
    | .error e => .error e
    | .ok a => .ok (some a)

/-- `verify_chat_search_response`: per-identity primitive verification,
root-equality check, value extraction, account-data update. -/
def verify_chat_search_response (kt : KeyTransparency) (c : Codec) (aci : Aci)
    (e164 : Option E164) (username_hash : Option UsernameHash)
    (stored_account_data : Option AccountData)
    (chat_search_response : TypedSearchResponse)
    (last_distinguished_tree_head : Option LastTreeHead) (now : Nat) :
    Except Error SearchResult :=
  match unpack_account_data stored_account_data with
  | (aci_monitoring_data, e164_monitoring_data, username_hash_monitoring_data,
      stored_last_tree_head) =>
  match verify_single_search_response kt aci.as_search_key
      chat_search_response.aci_search_response aci_monitoring_data
      chat_search_response.full_tree_head stored_last_tree_head
      last_distinguished_tree_head now with
  | .error e => .error e
  | .ok aci_result =>
  match verify_optional_search_response kt (e164.map E164.as_search_key)
      chat_search_response.e164_search_response
      "E.164 request/response mismatch" e164_monitoring_data
      chat_search_response.full_tree_head stored_last_tree_head
      last_distinguished_tree_head now with
  | .error e => .error e
  | .ok e164_result =>
  match verify_optional_search_response kt
      (username_hash.map UsernameHash.as_search_key)
      chat_search_response.username_hash_search_response
      "Username hash request/response mismatch" username_hash_monitoring_data
      chat_search_response.full_tree_head stored_last_tree_head
      last_distinguished_tree_head now with
  | .error e => .error e
  | .ok username_hash_result =>
  if !(aci_result.are_all_roots_equal [e164_result, username_hash_result]) then
    .error (.invalidResponse "mismatching tree roots")
  else
  match extract_value_as (SearchValue.to_identity_key c) aci_result with
  | .error e => .error e
  | .ok identity_key =>
  match extract_optional_aci e164_result with
  | .error e => .error e
  | .ok aci_for_e164 =>
  match extract_optional_aci username_hash_result with
  | .error e => .error e
  | .ok aci_for_username_hash =>
  let last_tree_head : StoredTreeHead :=
    { tree_head := some aci_result.state_update.tree_head
      root := aci_result.state_update.tree_root }
  let updated_account_data : StoredAccountData :=
    { aci := aci_result.state_update.monitoring_data.map
        StoredMonitoringData.from_monitoring_data
      e164 := (e164_result.bind fun r => r.state_update.monitoring_data).map
        StoredMonitoringData.from_monitoring_data
      username_hash :=
        (username_hash_result.bind fun r => r.state_update.monitoring_data).map
          StoredMonitoringData.from_monitoring_data
      last_tree_head := some last_tree_head }
  .ok { aci_identity_key := identity_key
        aci_for_e164 := aci_for_e164
        aci_for_username_hash := aci_for_username_hash
        timestamp := now
        account_data := updated_account_data }

/-! ### Protocol driver (`Kt`) -/

/-- `Config` (per-request chat timeout; default 10 s). -/
structure Config where
  chat_timeout : Nat
deriving DecidableEq, Repr

/-- `Config::default()`. -/
def Config.default : Config := { chat_timeout := 10000 }

/-- The driver: primitive verifier, chat transport, external codecs and
the wall clock captured by this call
(the single `SystemTime::now()` of each operation). -/
structure Kt where
  inner : KeyTransparency
  chat : ChatRequest → Nat → Except ChatServiceError ChatResponse
  codec : Codec
  config : Config
  now : Nat

/-- `http::StatusCode::is_success`. -/
def statusIsSuccess (status : Nat) : Bool :=
  200 ≤ status && status < 300

/-- `Kt::send`: transport errors become `ChatServiceError`, non-success
statuses become `RequestFailed`. -/
def Kt.send (kt : Kt) (request : ChatRequest) : Except Error ChatResponse :=
  match kt.chat request kt.config.chat_timeout with
  | .error e => .error (.chatServiceError e)
  | .ok response =>
    if statusIsSuccess response.status then .ok response
    else .error (.requestFailed response.status)

/-- The response decode chain shared by the three operations:
JSON envelope, then base64-no-pad, then protobuf
(the `RawChatSerializedResponse::try_from(response).and_then(decode_response)`
composition). -/
def decode_chat_response {R : Type} (c : Codec) (proto_decode : Bytes → Option R)
    (response : ChatResponse) : Except Error R :=
  match RawChatSerializedResponse.try_from c response with
  | .error e => .error e
  | .ok r => decode_response c proto_decode r.serialized_response

/-- `Kt::search`. -/
def Kt.search (kt : Kt) (aci : Aci) (aci_identity_key : PublicKey)
    (e164 : Option (E164 × Bytes)) (username_hash : Option UsernameHash)
    (stored_account_data : Option AccountData)
    (distinguished_tree_head : LastTreeHead) : Except Error SearchResult :=
  let raw_request := RawChatSearchRequest.new kt.codec aci aci_identity_key
    e164 username_hash
    (stored_account_data.map fun acc_data => acc_data.last_tree_head.1.tree_size)
    distinguished_tree_head.1.tree_size
  match kt.send (raw_request.to_chat_request kt.codec) with
  | .error e => .error e
  | .ok response =>
  match decode_chat_response kt.codec kt.codec.proto_decode_search response with
  | .error e => .error e
  | .ok untyped =>
  match TypedSearchResponse.from_untyped e164.isSome username_hash.isSome
      untyped with
  | .error e => .error e
  | .ok chat_search_response =>
    verify_chat_search_response kt.inner kt.codec aci (e164.map Prod.fst)
      username_hash stored_account_data chat_search_response
      (some distinguished_tree_head) kt.now

/-- The literal search key of the distinguished entry:
the byte string of the ASCII text d-i-s-t-i-n-g-u-i-s-h-e-d. -/
def distinguished_search_key : Bytes :=
  "distinguished".data.map Char.toNat

/-- The `SearchContext` built inside `Kt::distinguished`: no last tree
head, the caller's prior distinguished head as the distinguished
reference, no monitoring data. -/
def distinguished_search_context (last_distinguished : Option LastTreeHead) :
    SearchContext :=
  { last_tree_head := none
    last_distinguished_tree_head := last_distinguished
    data := none }

/-- `Kt::distinguished`. -/
def Kt.distinguished (kt : Kt) (last_distinguished : Option LastTreeHead) :
    Except Error SearchStateUpdate :=
  let distinguished_size :=
    last_distinguished.map fun last_tree_head => last_tree_head.1.tree_size
  let raw_request : RawChatDistinguishedRequest :=
    { last_tree_head_size := distinguished_size }
  match kt.send raw_request.to_chat_request with
  | .error e => .error e
  | .ok response =>
  match decode_chat_response kt.codec kt.codec.proto_decode_distinguished
      response with
  | .error e => .error e
  | .ok decoded =>
  match decoded.tree_head with
  | none => .error (.invalidResponse "tree head must be present")
  | some tree_head =>
  match decoded.distinguished with
  | none => .error (.invalidResponse "search response must be present")
  | some condensed_response =>
  match kt.inner.verify_search { search_key := distinguished_search_key }
      { search := condensed_response, tree_head := tree_head }
      (distinguished_search_context last_distinguished)
      false kt.now with
  | .error e => .error (.verificationFailed e)
  | .ok verified_result => .ok verified_result.state_update

/-! ### Monitor request construction and the monitor operation -/

/-- `ValueMonitor::new`. -/
def ValueMonitor.new (c : Codec) (value : String) (entry_position : Nat)
    (commitment_index : Bytes) : ValueMonitor :=
  { value := value
    entry_position := entry_position
    commitment_index := c.b64_nopad_encode commitment_index }

/-- `RawChatMonitorRequest::new`: the account data must contain
monitoring data for exactly the identities requested. -/
def RawChatMonitorRequest.new (c : Codec) (aci : Aci) (e164 : Option E164)
    (username_hash : Option UsernameHash) (account_data : AccountData)
    (distinguished_tree_head_size : Nat) :
    Except Error RawChatMonitorRequest :=
  if e164.isSome != account_data.e164.isSome
      || username_hash.isSome != account_data.username_hash.isSome then
    .error (.invalidRequest "account data does not match the monitor request")
  else
    -- the `unwrap()`s on the optional monitoring data are guarded by the
    -- optionality check above; `getD default` stands in for them
    .ok { aci := ValueMonitor.new c (aci.as_chat_value c)
            account_data.aci.latest_log_position account_data.aci.index
          e164 := e164.map fun e =>
            ValueMonitor.new c e.as_chat_value
              (account_data.e164.getD default).latest_log_position
              (account_data.e164.getD default).index
          username_hash := username_hash.map fun unh =>
            ValueMonitor.new c (unh.as_chat_value c)
              (account_data.username_hash.getD default).latest_log_position
              (account_data.username_hash.getD default).index
          last_non_distinguished_tree_head_size :=
            account_data.last_tree_head.1.tree_size
          last_distinguished_tree_head_size := distinguished_tree_head_size }

/-- First-match lookup in the association-list model of the
monitoring-data map. -/
def alist_lookup (key : Bytes) :
    List (Bytes × MonitoringData) → Option MonitoringData
  | [] => none
  | (k, v) :: rest => if k = key then some v else alist_lookup key rest

/-- First-match removal (`HashMap::remove`) in the association-list
model: the removed value, if any, and the remaining entries. -/
def alist_remove (key : Bytes) :
    List (Bytes × MonitoringData) →
      Option MonitoringData × List (Bytes × MonitoringData)
  | [] => (none, [])
  | (k, v) :: rest =>
    if k = key then (some v, rest)
    else
      match alist_remove key rest with
      | (found, remaining) => (found, (k, v) :: remaining)

/-- Assembly of the `MonitorRequest` / `MonitorResponse` /
`MonitorContext` triple inside `Kt::monitor` (the key, proof and
monitoring-data-map pushes of lines 580-640). The missing-monitoring-data
errors of the e164 and username-hash branches surface here. The response
proofs for requested optional identities were checked present by
`TypedMonitorResponse::from_untyped`; the source unwraps them, the model
defaults them (the façade never reads proof contents). -/
def monitor_assemble (aci : Aci) (e164 : Option E164)
    (username_hash : Option UsernameHash) (account_data : AccountData)
    (last_distinguished_tree_head : LastTreeHead)
    (chat_monitor_response : TypedMonitorResponse) :
    Except Error (MonitorRequest × MonitorResponse × MonitorContext) :=
  let aci_monitor_key : MonitorKey :=
    { search_key := aci.as_search_key
      entry_position := account_data.aci.latest_log_position
      commitment_index := account_data.aci.index }
  let monitor_keys0 := [aci_monitor_key]
  let proofs0 := [chat_monitor_response.aci]
  let monitoring_data_map0 := [(aci.as_search_key, account_data.aci)]
  match e164, account_data.e164 with
  | some _, none => .error (.invalidRequest "missing E.164 monitoring data")
  | e164k, e164_monitoring_data =>
  let monitor_keys1 := monitor_keys0 ++
    (match e164k, e164_monitoring_data with
     | some e, some monitoring_data =>
       [{ search_key := e.as_search_key
          entry_position := monitoring_data.latest_log_position
          commitment_index := monitoring_data.index : MonitorKey }]
     | _, _ => [])
  let proofs1 := proofs0 ++
    (match e164k with
     | some _ => [chat_monitor_response.e164.getD { blob := 0 }]
     | none => [])
  let monitoring_data_map1 := monitoring_data_map0 ++
    (match e164k, e164_monitoring_data with
     | some e, some monitoring_data => [(e.as_search_key, monitoring_data)]
     | _, _ => [])
  match username_hash, account_data.username_hash with
  | some _, none =>
    .error (.invalidRequest "missing username hash monitoring data")
  | unhk, unh_monitoring_data =>
  let monitor_keys2 := monitor_keys1 ++
    (match unhk, unh_monitoring_data with
     | some u, some monitoring_data =>
       [{ search_key := u.as_search_key
          entry_position := monitoring_data.latest_log_position
          commitment_index := monitoring_data.index : MonitorKey }]
     | _, _ => [])
  let proofs2 := proofs1 ++
    (match unhk with
     | some _ => [chat_monitor_response.username_hash.getD { blob := 0 }]
     | none => [])
  let monitoring_data_map2 := monitoring_data_map1 ++
    (match unhk, unh_monitoring_data with
     | some u, some monitoring_data => [(u.as_search_key, monitoring_data)]
     | _, _ => [])
  .ok ({ keys := monitor_keys2, consistency := none },
       { tree_head := some chat_monitor_response.tree_head
         proofs := proofs2
         inclusion := chat_monitor_response.inclusion },
       { last_tree_head := some account_data.last_tree_head
         last_distinguished_tree_head := last_distinguished_tree_head
         data := monitoring_data_map2 })

/-- Unpacking of the verified `LocalStateUpdate` into a fresh
`AccountData` (the `take_data` calls of lines 655-677): each identity's
updated monitoring data is removed from the verified map by its search
key, in the order ACI, E.164, username hash. -/
def monitor_unpack (aci : Aci) (e164 : Option E164)
    (username_hash : Option UsernameHash) (verified : MonitorStateUpdate) :
    Except Error AccountData :=
  match alist_remove aci.as_search_key verified.monitoring_data with
  | (none, _) => .error (.invalidResponse "ACI monitoring data is missing")
  | (some aci_data, rest1) =>
  match e164 with
  | none =>
    match username_hash with
    | none =>
      .ok { aci := aci_data, e164 := none, username_hash := none
            last_tree_head := (verified.tree_head, verified.tree_root) }
    | some unh =>
      match alist_remove unh.as_search_key rest1 with
      | (none, _) =>
        .error (.invalidResponse "username hash monitoring data is missing")
      | (some unh_data, _) =>
        .ok { aci := aci_data, e164 := none, username_hash := some unh_data
              last_tree_head := (verified.tree_head, verified.tree_root) }
  | some e =>
    match alist_remove e.as_search_key rest1 with
    | (none, _) => .error (.invalidResponse "E.164 monitoring data is missing")
    | (some e164_data, rest2) =>
    match username_hash with
    | none =>
      .ok { aci := aci_data, e164 := some e164_data, username_hash := none
            last_tree_head := (verified.tree_head, verified.tree_root) }
    | some unh =>
      match alist_remove unh.as_search_key rest2 with
      | (none, _) =>
        .error (.invalidResponse "username hash monitoring data is missing")
      | (some unh_data, _) =>
        .ok { aci := aci_data, e164 := some e164_data
              username_hash := some unh_data
              last_tree_head := (verified.tree_head, verified.tree_root) }

/-- The post-normalization body of `Kt::monitor` (lines 572-678):
assemble the primitive verifier inputs, verify, unpack. -/
def monitor_inner (kt : Kt) (aci : Aci) (e164 : Option E164)
    (username_hash : Option UsernameHash) (account_data : AccountData)
    (last_distinguished_tree_head : LastTreeHead)
    (chat_monitor_response : TypedMonitorResponse) :
    Except Error AccountData :=
  match monitor_assemble aci e164 username_hash account_data
      last_distinguished_tree_head chat_monitor_response with
  | .error e => .error e
  | .ok (monitor_request, monitor_response, monitor_context) =>
  match kt.inner.verify_monitor monitor_request monitor_response
      monitor_context kt.now with
  | .error e => .error (.verificationFailed e)
  | .ok verified => monitor_unpack aci e164 username_hash verified

/-- `Kt::monitor`. -/
def Kt.monitor (kt : Kt) (aci : Aci) (e164 : Option E164)
    (username_hash : Option UsernameHash) (account_data : AccountData)
    (last_distinguished_tree_head : LastTreeHead) :
    Except Error AccountData :=
  match RawChatMonitorRequest.new kt.codec aci e164 username_hash account_data
      last_distinguished_tree_head.1.tree_size with
  | .error e => .error e
  | .ok raw_request =>
  match kt.send (raw_request.to_chat_request kt.codec) with
  | .error e => .error e
  | .ok response =>
  match decode_chat_response kt.codec kt.codec.proto_decode_monitor response with
  | .error e => .error e
  | .ok untyped =>
  match TypedMonitorResponse.from_untyped e164.isSome username_hash.isSome
      untyped with
  | .error e => .error e
  | .ok chat_monitor_response =>
    monitor_inner kt aci e164 username_hash account_data
      last_distinguished_tree_head chat_monitor_response

/-! ### Concrete fixtures used by witnesses and counterexamples -/

/-- A 16-byte test ACI. -/
def fixAci : Aci := { service_id_binary := List.replicate 16 1 }

/-- A test phone number. -/
def fixE164 : E164 := { number := 15550100 }

/-- A test username hash. -/
def fixUnh : UsernameHash := { bytes := [3, 4] }

/-- A test last/distinguished tree head of size 4. -/
def fixLth : LastTreeHead :=
  ({ tree_size := 4, timestamp := 0, signature := [] }, [8])

/-- Test monitoring data at position 3. -/
def fixMd : MonitoringData := { index := [1], pos := 3, ptrs := [], owned := true }

/-- Test account data holding only ACI monitoring data. -/
def fixAcct : AccountData :=
  { aci := fixMd, e164 := none, username_hash := none, last_tree_head := fixLth }

/-- A codec whose stages all succeed on the fixture bytes. -/
def fixCodec : Codec :=
  { json_parse := fun _ => some { serialized_response := "sr" }
    b64_decode := fun _ => some [1]
    b64_encode := fun _ => "b"
    b64_nopad_encode := fun _ => "bn"
    b64_url_nopad_encode := fun _ => "bu"
    proto_decode_search := fun _ =>
      some { tree_head := some { tree_head := none, last := [], distinguished := [] }
             aci := some { blob := 1 }
             e164 := some { blob := 2 }
             username_hash := none }
    proto_decode_monitor := fun _ =>
      some { tree_head := some { tree_head := none, last := [], distinguished := [] }
             aci := some { blob := 1 }
             e164 := none
             username_hash := none
             inclusion := [] }
    proto_decode_distinguished := fun _ =>
      some { tree_head := some { tree_head := none, last := [], distinguished := [] }
             distinguished := some { blob := 5 } }
    json_encode_search := fun _ => [0]
    json_encode_monitor := fun _ => [0]
    decode_identity_key := fun b => some b
    aci_service_id_string := fun _ => "aci" }

/-- A transport that always answers 200 with body `[1]`. -/
def fixChat : ChatRequest → Nat → Except ChatServiceError ChatResponse :=
  fun _ _ => .ok { status := 200, body := some [1] }

/-- A primitive verifier whose search result's root echoes the search
key (so distinct keys produce mismatching roots), and whose monitor
result advances the tree to size 6 and echoes the context's data. -/
def fixVerifier : KeyTransparency :=
  { verify_search := fun req _fsr _ctx _b _t =>
      .ok { value := SEARCH_VALUE_VERSION_BYTE :: List.replicate 16 7
            state_update :=
              { tree_head := { tree_size := 5, timestamp := 0, signature := [] }
                tree_root := req.search_key
                monitoring_data := some fixMd } }
    verify_monitor := fun _req _resp ctx _t =>
      match ctx.last_tree_head with
      | some lth =>
        if lth.1.tree_size ≤ 6 then
          .ok { tree_head := { tree_size := 6, timestamp := 0, signature := [] }
                tree_root := [9]
                monitoring_data := ctx.data }
        else .error { code := 1 }
      | none =>
        .ok { tree_head := { tree_size := 6, timestamp := 0, signature := [] }
              tree_root := [9]
              monitoring_data := ctx.data } }

/-- A primitive verifier whose search results all carry the same root
`[9]`, so every cross-check passes. -/
def fixVerifierSameRoot : KeyTransparency :=
  { verify_search := fun _req _fsr _ctx _b _t =>
      .ok { value := SEARCH_VALUE_VERSION_BYTE :: List.replicate 16 7
            state_update :=
              { tree_head := { tree_size := 5, timestamp := 0, signature := [] }
                tree_root := [9]
                monitoring_data := some fixMd } }
    verify_monitor := fixVerifier.verify_monitor }

/-- A driver fixture over the mismatching-roots verifier. -/
def fixKt : Kt :=
  { inner := fixVerifier
    chat := fixChat
    codec := fixCodec
    config := Config.default
    now := 42 }

/-- A driver fixture over the equal-roots verifier. -/
def fixKtSameRoot : Kt :=
  { inner := fixVerifierSameRoot
    chat := fixChat
    codec := fixCodec
    config := Config.default
    now := 42 }

/-- A typed search response fixture carrying ACI and E.164 sub-responses. -/
def fixTypedSearchResponse : TypedSearchResponse :=
  { full_tree_head := { tree_head := none, last := [], distinguished := [] }
    aci_search_response := { blob := 1 }
    e164_search_response := some { blob := 2 }
    username_hash_search_response := none }

/-! ### Claim theorems -/

/-- Claim C8: search-key encoding is a pure function of the identity,
with the stated shapes: an ACI key is the byte 'a' (0x61) followed by
the 16-byte service-id binary, an E164 key is 'n' (0x6e) followed by the
ASCII decimal string with leading '+', a username-hash key is 'u' (0x75)
followed by the raw hash bytes; and since these single-byte tags are
pairwise distinct, search keys of different identity kinds never
collide. -/
theorem C8_search_key_encoding (a : Aci) (e : E164) (u : UsernameHash) :
    a.as_search_key = 0x61 :: a.service_id_binary ∧
    e.as_search_key = 0x6e :: 0x2b :: natDecimalDigitBytes e.number ∧
    u.as_search_key = 0x75 :: u.bytes ∧
    a.as_search_key ≠ e.as_search_key ∧
    a.as_search_key ≠ u.as_search_key ∧
    e.as_search_key ≠ u.as_search_key := by
  refine ⟨rfl, rfl, rfl, ?_, ?_, ?_⟩ <;>
    simp [Aci.as_search_key, E164.as_search_key, UsernameHash.as_search_key,
      E164.chat_value_bytes]

/-- Claim C3: extraction of a verified value succeeds exactly when the
value's first byte is the version byte 0x00 (in particular the value is
non-empty); otherwise (wrong first byte, or empty value)
`SearchValue` construction and the whole extraction yield
`InvalidResponse("bad value format")`; and on success the payload handed
to the ACI / identity-key parser is exactly the value with the single
version byte stripped. -/
theorem C3_value_version_byte (T : Type) (parse : SearchValue → Except Error T)
    (result : VerifiedSearchResult) :
    (result.value.head? = some SEARCH_VALUE_VERSION_BYTE →
      SearchValue.try_from result = .ok { raw := result.value } ∧
      extract_value_as parse result = parse { raw := result.value } ∧
      SearchValue.payload { raw := result.value } = result.value.drop 1 ∧
      result.value ≠ []) ∧
    (result.value.head? ≠ some SEARCH_VALUE_VERSION_BYTE →
      SearchValue.try_from result = .error (.invalidResponse "bad value format") ∧
      extract_value_as parse result =
        .error (.invalidResponse "bad value format")) ∧
    (result.value = [] →
      extract_value_as parse result =
        .error (.invalidResponse "bad value format")) := by
  refine ⟨?_, ?_, ?_⟩
  · intro h
    unfold extract_value_as SearchValue.try_from SearchValue.payload
    rw [if_pos h]
    refine ⟨rfl, rfl, rfl, ?_⟩
    intro hnil
    rw [hnil] at h
    simp at h
  · intro h
    unfold extract_value_as SearchValue.try_from
    rw [if_neg h]
    exact ⟨rfl, rfl⟩
  · intro h
    unfold extract_value_as SearchValue.try_from
    rw [if_neg (by rw [h]; simp)]

/-- Claim C3 witness: on the concrete value 0x00,0x07 the extraction
hands the parser exactly the payload 0x07, and on the concrete values
0x01,0x07 and the empty value it fails with "bad value format". -/
theorem C3_witness :
    (extract_value_as (fun v => .ok v.payload)
        { value := [0, 7]
          state_update := { tree_head := { tree_size := 1, timestamp := 0, signature := [] }
                            tree_root := [], monitoring_data := none } }
      = .ok [7]) ∧
    (extract_value_as (T := Bytes) (fun v => .ok v.payload)
        { value := [1, 7]
          state_update := { tree_head := { tree_size := 1, timestamp := 0, signature := [] }
                            tree_root := [], monitoring_data := none } }
      = .error (.invalidResponse "bad value format")) ∧
    (extract_value_as (T := Bytes) (fun v => .ok v.payload)
        { value := []
          state_update := { tree_head := { tree_size := 1, timestamp := 0, signature := [] }
                            tree_root := [], monitoring_data := none } }
      = .error (.invalidResponse "bad value format")) := by
  refine ⟨?_, ?_, ?_⟩
  · have h := (C3_value_version_byte Bytes (fun v => .ok v.payload)
      { value := [0, 7]
        state_update := { tree_head := { tree_size := 1, timestamp := 0, signature := [] }
                          tree_root := [], monitoring_data := none } }).1 (by decide)
    rw [h.2.1]
    rfl
  · exact (C3_value_version_byte Bytes (fun v => .ok v.payload)
      { value := [1, 7]
        state_update := { tree_head := { tree_size := 1, timestamp := 0, signature := [] }
                          tree_root := [], monitoring_data := none } }).2.1 (by decide) |>.2
  · exact (C3_value_version_byte Bytes (fun v => .ok v.payload)
      { value := []
        state_update := { tree_head := { tree_size := 1, timestamp := 0, signature := [] }
                          tree_root := [], monitoring_data := none } }).2.2 rfl

/-- Claim C7: the response decode chain is fixed — JSON envelope, then
base64-no-pad, then protobuf — and each stage's failure surfaces exactly
`InvalidResponse` with its literal tag: a missing body gives
"missing body", unparseable JSON gives "invalid JSON", bad base64 gives
"invalid base64", and a protobuf decode failure gives
"invalid search response protobuf encoding". -/
theorem C7_decode_order_and_tags (R : Type) (c : Codec)
    (proto_decode : Bytes → Option R) (response : ChatResponse) :
    (response.body = none →
      decode_chat_response c proto_decode response =
        .error (.invalidResponse "missing body")) ∧
    (∀ b, response.body = some b → c.json_parse b = none →
      decode_chat_response c proto_decode response =
        .error (.invalidResponse "invalid JSON")) ∧
    (∀ b r, response.body = some b → c.json_parse b = some r →
      c.b64_decode r.serialized_response = none →
      decode_chat_response c proto_decode response =
        .error (.invalidResponse "invalid base64")) ∧
    (∀ b r proto_bytes, response.body = some b → c.json_parse b = some r →
      c.b64_decode r.serialized_response = some proto_bytes →
      proto_decode proto_bytes = none →
      decode_chat_response c proto_decode response =
        .error (.invalidResponse "invalid search response protobuf encoding")) := by
  refine ⟨?_, ?_, ?_, ?_⟩
  · intro h
    unfold decode_chat_response RawChatSerializedResponse.try_from
    rw [h]
  · intro b hb hj
    unfold decode_chat_response RawChatSerializedResponse.try_from
    simp only [hb, hj]
  · intro b r hb hj h64
    unfold decode_chat_response RawChatSerializedResponse.try_from decode_response
    simp only [hb, hj, h64]
  · intro b r proto_bytes hb hj h64 hp
    unfold decode_chat_response RawChatSerializedResponse.try_from decode_response
    simp only [hb, hj, h64, hp]

/-- Claim C7 witness: with a concrete codec, the four failure stages at
concrete inputs produce their four literal tags. -/
theorem C7_witness :
    (decode_chat_response (R := Nat) fixCodec (fun _ => none)
        { status := 200, body := none }
      = .error (.invalidResponse "missing body")) ∧
    (decode_chat_response (R := Nat) fixCodec (fun _ => none)
        { status := 200, body := some [1] }
      = .error (.invalidResponse "invalid search response protobuf encoding")) := by
  constructor
  · exact (C7_decode_order_and_tags Nat fixCodec (fun _ => none)
      { status := 200, body := none }).1 rfl
  · exact (C7_decode_order_and_tags Nat fixCodec (fun _ => none)
      { status := 200, body := some [1] }).2.2.2 [1]
      { serialized_response := "sr" } [1] rfl rfl rfl rfl

/-- Claim C2: for every search or monitor request/response pair, if the
request omits an optional identity (E.164 or username hash) while the
decoded response carries its sub-response, or includes the identity
while the response lacks it, normalization fails with
`InvalidResponse("request/response optionality mismatch")`; and in the
search pipeline this error is returned for every primitive verifier,
i.e. verification is never attempted. -/
theorem C2_optionality_mismatch (re ru : Bool) (sresp : ChatSearchResponse)
    (mresp : ChatMonitorResponse) :
    ((re ≠ sresp.e164.isSome ∨ ru ≠ sresp.username_hash.isSome) →
      TypedSearchResponse.from_untyped re ru sresp =
        .error (.invalidResponse "request/response optionality mismatch")) ∧
    ((re ≠ mresp.e164.isSome ∨ ru ≠ mresp.username_hash.isSome) →
      TypedMonitorResponse.from_untyped re ru mresp =
        .error (.invalidResponse "request/response optionality mismatch")) ∧
    (∀ (kt : Kt) (aci : Aci) (ik : PublicKey) (e164 : Option (E164 × Bytes))
        (unh : Option UsernameHash) (sad : Option AccountData)
        (dth : LastTreeHead) (response : ChatResponse),
      kt.send ((RawChatSearchRequest.new kt.codec aci ik e164 unh
          (sad.map fun acc_data => acc_data.last_tree_head.1.tree_size)
          dth.1.tree_size).to_chat_request kt.codec) = .ok response →
      decode_chat_response kt.codec kt.codec.proto_decode_search response =
        .ok sresp →
      (e164.isSome ≠ sresp.e164.isSome ∨
        unh.isSome ≠ sresp.username_hash.isSome) →
      Kt.search kt aci ik e164 unh sad dth =
        .error (.invalidResponse "request/response optionality mismatch")) := by
  refine ⟨?_, ?_, ?_⟩
  · intro h
    unfold TypedSearchResponse.from_untyped
    rw [if_pos (by simp only [Bool.or_eq_true, bne_iff_ne]; exact h)]
  · intro h
    unfold TypedMonitorResponse.from_untyped
    rw [if_pos (by simp only [Bool.or_eq_true, bne_iff_ne]; exact h)]
  · intro kt aci ik e164 unh sad dth response hsend hdec hmis
    unfold Kt.search
    simp only [hsend, hdec]
    unfold TypedSearchResponse.from_untyped
    rw [if_pos (by simp only [Bool.or_eq_true, bne_iff_ne]; exact hmis)]

/-- Claim C2 witness: with concrete fixtures whose decoded search
response carries an E.164 sub-response while the request has none, the
search pipeline fails with the optionality-mismatch tag for a concrete
driver. -/
theorem C2_witness :
    Kt.search fixKtSameRoot fixAci { serialized := [5] } none none none fixLth =
      .error (.invalidResponse "request/response optionality mismatch") :=
  (C2_optionality_mismatch false false
      { tree_head := some { tree_head := none, last := [], distinguished := [] }
        aci := some { blob := 1 }
        e164 := some { blob := 2 }
        username_hash := none }
      { tree_head := none, aci := none, e164 := none, username_hash := none
        inclusion := [] }).2.2
    fixKtSameRoot fixAci { serialized := [5] } none none none fixLth
    { status := 200, body := some [1] } rfl rfl (Or.inl (by decide))

/-- Claim C6 (as amended): when monitoring is requested for an identity
whose monitoring data is absent from the supplied account data (in
either direction of mismatch, for E.164 or username hash), the monitor
operation fails during request construction — hence for every transport
and verifier, before any network interaction — with
`InvalidRequest("account data does not match the monitor request")`. -/
theorem C6_monitor_missing_data (kt : Kt) (aci : Aci) (e164 : Option E164)
    (username_hash : Option UsernameHash) (account_data : AccountData)
    (ldth : LastTreeHead)
    (h : e164.isSome ≠ account_data.e164.isSome ∨
        username_hash.isSome ≠ account_data.username_hash.isSome) :
    Kt.monitor kt aci e164 username_hash account_data ldth =
      .error (.invalidRequest "account data does not match the monitor request") := by
  unfold Kt.monitor RawChatMonitorRequest.new
  rw [if_pos (by simp only [Bool.or_eq_true, bne_iff_ne]; exact h)]

/-- Claim C6 counterexample: at the concrete input that requests E.164
monitoring while the account data has none, the operation fails with
`InvalidRequest("account data does not match the monitor request")`, not
with `InvalidRequest("missing E.164 monitoring data")` as claimed. -/
theorem C6_counterexample :
    Kt.monitor fixKt fixAci (some fixE164) none fixAcct fixLth =
      .error (.invalidRequest "account data does not match the monitor request") ∧
    Kt.monitor fixKt fixAci (some fixE164) none fixAcct fixLth ≠
      .error (.invalidRequest "missing E.164 monitoring data") := by
  refine ⟨rfl, ?_⟩
  intro h
  rw [show Kt.monitor fixKt fixAci (some fixE164) none fixAcct fixLth =
      .error (.invalidRequest "account data does not match the monitor request")
    from rfl] at h
  simp only [Except.error.injEq, Error.invalidRequest.injEq] at h
  exact absurd h (by decide)

/-- Claim C6 witness: the amended statement applied at a concrete driver
and a concrete username-hash mismatch. -/
theorem C6_witness :
    Kt.monitor fixKtSameRoot fixAci none (some fixUnh) fixAcct fixLth =
      .error (.invalidRequest "account data does not match the monitor request") :=
  C6_monitor_missing_data fixKtSameRoot fixAci none (some fixUnh) fixAcct fixLth
    (Or.inr (by decide))

/-- Claim C5 (as amended): the distinguished operation always queries
the literal search key "distinguished", calls the primitive verifier
with the include-identity-key flag set to false, and supplies no
`last_tree_head` in the `SearchContext`; the caller's optional prior
distinguished head is supplied as the context's
`last_distinguished_tree_head` (that is what triggers the consistency
proof check). -/
theorem C5_distinguished_call_shape (kt : Kt)
    (last_distinguished : Option LastTreeHead) (response : ChatResponse)
    (decoded : ChatDistinguishedResponse) (fth : FullTreeHead)
    (condensed : CondensedTreeSearchResponse)
    (hsend : kt.send (RawChatDistinguishedRequest.to_chat_request
        { last_tree_head_size :=
            last_distinguished.map fun last_tree_head => last_tree_head.1.tree_size })
      = .ok response)
    (hdec : decode_chat_response kt.codec kt.codec.proto_decode_distinguished
        response = .ok decoded)
    (hth : decoded.tree_head = some fth)
    (hcond : decoded.distinguished = some condensed) :
    distinguished_search_key =
      [100, 105, 115, 116, 105, 110, 103, 117, 105, 115, 104, 101, 100] ∧
    distinguished_search_context last_distinguished =
      { last_tree_head := none
        last_distinguished_tree_head := last_distinguished
        data := none } ∧
    Kt.distinguished kt last_distinguished =
      (match kt.inner.verify_search { search_key := distinguished_search_key }
          { search := condensed, tree_head := fth }
          (distinguished_search_context last_distinguished) false kt.now with
       | .error e => .error (.verificationFailed e)
       | .ok verified_result => .ok verified_result.state_update) := by
  refine ⟨by decide, rfl, ?_⟩
  unfold Kt.distinguished
  simp only [hsend, hdec, hth, hcond]

/-- Claim C5 counterexample: with a concrete prior distinguished head,
the `SearchContext` built by the distinguished operation does carry a
`last_distinguished_tree_head` (the claim says none is supplied); a
probe verifier that fails precisely when the context's
`last_distinguished_tree_head` is present observes it. -/
theorem C5_counterexample :
    ¬ ((distinguished_search_context (some fixLth)).last_distinguished_tree_head
        = none) ∧
    Kt.distinguished
        { inner :=
            { verify_search := fun _req _fsr ctx _b _t =>
                if ctx.last_distinguished_tree_head = none then
                  .ok { value := []
                        state_update :=
                          { tree_head := { tree_size := 1, timestamp := 0, signature := [] }
                            tree_root := [], monitoring_data := none } }
                else .error { code := 77 }
              verify_monitor := fun _ _ _ _ => .error { code := 0 } }
          chat := fixChat
          codec := fixCodec
          config := Config.default
          now := 42 }
        (some fixLth)
      = .error (.verificationFailed { code := 77 }) := by
  exact ⟨by decide, rfl⟩

/-- Claim C5 witness: the amended statement applied to the concrete
fixture driver with a prior distinguished head; the resulting call
evaluates to the success of the fixture verifier. -/
theorem C5_witness :
    Kt.distinguished fixKtSameRoot (some fixLth) =
      .ok { tree_head := { tree_size := 5, timestamp := 0, signature := [] }
            tree_root := [9], monitoring_data := some fixMd } := by
  have h := C5_distinguished_call_shape fixKtSameRoot (some fixLth)
    { status := 200, body := some [1] }
    { tree_head := some { tree_head := none, last := [], distinguished := [] }
      distinguished := some { blob := 5 } }
    { tree_head := none, last := [], distinguished := [] }
    { blob := 5 } rfl rfl rfl rfl
  rw [h.2.2]
  rfl

/-- Claim C1: in `verify_chat_search_response`, once the per-identity
primitive verifications have all succeeded (producing the ACI result and
the optional E.164 / username-hash results), a mismatch among the Merkle
tree roots bound to the individual results yields
`InvalidResponse("mismatching tree roots")`; and conversely every
successful search has all (up to 3) sub-results' roots byte-equal. -/
theorem C1_root_equality (kt : KeyTransparency) (c : Codec) (aci : Aci)
    (e164 : Option E164) (username_hash : Option UsernameHash)
    (stored : Option AccountData) (resp : TypedSearchResponse)
    (ldth : Option LastTreeHead) (now : Nat)
    (amd emd umd : Option MonitoringData) (slth : Option LastTreeHead)
    (r0 : VerifiedSearchResult) (oe ou : Option VerifiedSearchResult)
    (hunpack : unpack_account_data stored = (amd, emd, umd, slth))
    (h0 : verify_single_search_response kt aci.as_search_key
        resp.aci_search_response amd resp.full_tree_head slth ldth now = .ok r0)
    (h1 : verify_optional_search_response kt (e164.map E164.as_search_key)
        resp.e164_search_response "E.164 request/response mismatch" emd
        resp.full_tree_head slth ldth now = .ok oe)
    (h2 : verify_optional_search_response kt
        (username_hash.map UsernameHash.as_search_key)
        resp.username_hash_search_response
        "Username hash request/response mismatch" umd resp.full_tree_head slth
        ldth now = .ok ou) :
    (r0.are_all_roots_equal [oe, ou] = false →
      verify_chat_search_response kt c aci e164 username_hash stored resp ldth
        now = .error (.invalidResponse "mismatching tree roots")) ∧
    (∀ x, verify_chat_search_response kt c aci e164 username_hash stored resp
        ldth now = .ok x → r0.are_all_roots_equal [oe, ou] = true) := by
  unfold verify_chat_search_response
  simp only [hunpack, h0, h1, h2]
  constructor
  · intro hfalse
    simp [hfalse]
  · intro x hx
    cases hroots : r0.are_all_roots_equal [oe, ou] with
    | true => rfl
    | false =>
      rw [hroots] at hx
      simp at hx

/-- Claim C1 witness fixture: the ACI sub-result produced by the
root-echoing fixture verifier. -/
def fixR0 : VerifiedSearchResult :=
  { value := SEARCH_VALUE_VERSION_BYTE :: List.replicate 16 7
    state_update := { tree_head := { tree_size := 5, timestamp := 0, signature := [] }
                      tree_root := fixAci.as_search_key
                      monitoring_data := some fixMd } }

/-- Claim C1 witness fixture: the E.164 sub-result produced by the
root-echoing fixture verifier. -/
def fixR1 : VerifiedSearchResult :=
  { value := SEARCH_VALUE_VERSION_BYTE :: List.replicate 16 7
    state_update := { tree_head := { tree_size := 5, timestamp := 0, signature := [] }
                      tree_root := fixE164.as_search_key
                      monitoring_data := some fixMd } }

/-- Claim C1 witness: with the fixture verifier that binds each
sub-result to a root echoing its own search key, the two roots disagree
and the façade rejects the response with "mismatching tree roots". -/
theorem C1_witness :
    fixR0.are_all_roots_equal [some fixR1, none] = false ∧
    verify_chat_search_response fixVerifier fixCodec fixAci (some fixE164) none
        none fixTypedSearchResponse (some fixLth) 42 =
      .error (.invalidResponse "mismatching tree roots") := by
  refine ⟨rfl, ?_⟩
  exact (C1_root_equality fixVerifier fixCodec fixAci (some fixE164) none none
      fixTypedSearchResponse (some fixLth) 42 none none none none
      fixR0 (some fixR1) none rfl rfl rfl rfl).1 rfl

/-! ### Helper lemmas for the monitor operation -/

/-- A successful first-match removal implies a successful first-match
lookup of the same value. -/
theorem alist_remove_fst_lookup (key : Bytes)
    (l : List (Bytes × MonitoringData)) :
    ∀ (v : MonitoringData) (rest : List (Bytes × MonitoringData)),
      alist_remove key l = (some v, rest) → alist_lookup key l = some v := by
  induction l with
  | nil =>
    intro v rest h
    simp [alist_remove] at h
  | cons hd tl ih =>
    obtain ⟨k0, v0⟩ := hd
    intro v rest h
    unfold alist_remove at h
    unfold alist_lookup
    by_cases hk : k0 = key
    · rw [if_pos hk] at h
      rw [if_pos hk]
      rw [Prod.mk.injEq] at h
      exact h.1
    · rw [if_neg hk] at h
      rw [if_neg hk]
      cases hr : alist_remove key tl with
      | mk found remaining =>
        rw [hr] at h
        rw [Prod.mk.injEq] at h
        exact ih v remaining (by rw [hr, h.1])

/-- Shape of any successfully assembled monitor-verification context:
its last tree head is the caller's stored one, and its monitoring-data
map sends the ACI's search key to the caller's ACI monitoring data. -/
theorem monitor_assemble_ok_shape (aci : Aci) (e164 : Option E164)
    (username_hash : Option UsernameHash) (account_data : AccountData)
    (ldth : LastTreeHead) (cmr : TypedMonitorResponse)
    (trip : MonitorRequest × MonitorResponse × MonitorContext)
    (h : monitor_assemble aci e164 username_hash account_data ldth cmr =
      .ok trip) :
    trip.2.2.last_tree_head = some account_data.last_tree_head ∧
    alist_lookup aci.as_search_key trip.2.2.data = some account_data.aci := by
  unfold monitor_assemble at h
  cases e164 with
  | some e =>
    cases he : account_data.e164 with
    | none =>
      rw [he] at h
      exact Except.noConfusion h
    | some emd =>
      rw [he] at h
      cases username_hash with
      | some u =>
        cases hu : account_data.username_hash with
        | none =>
          rw [hu] at h
          exact Except.noConfusion h
        | some umd =>
          rw [hu] at h
          simp only [Except.ok.injEq] at h
          subst h
          refine ⟨rfl, ?_⟩
          simp [alist_lookup]
      | none =>
        simp only [Except.ok.injEq] at h
        subst h
        refine ⟨rfl, ?_⟩
        simp [alist_lookup]
  | none =>
    cases username_hash with
    | some u =>
      cases hu : account_data.username_hash with
      | none =>
        rw [hu] at h
        exact Except.noConfusion h
      | some umd =>
        rw [hu] at h
        simp only [Except.ok.injEq] at h
        subst h
        refine ⟨rfl, ?_⟩
        simp [alist_lookup]
    | none =>
      simp only [Except.ok.injEq] at h
      subst h
      refine ⟨rfl, ?_⟩
      simp [alist_lookup]

/-- Shape of any successfully unpacked monitor result: the ACI entry is
removed from the verified map by the ACI's search key, the optional
entries are present exactly when requested, and the new last tree head
is the verified one. -/
theorem monitor_unpack_ok_shape (aci : Aci) (e164 : Option E164)
    (username_hash : Option UsernameHash) (verified : MonitorStateUpdate)
    (updated : AccountData)
    (h : monitor_unpack aci e164 username_hash verified = .ok updated) :
    (∃ rest, alist_remove aci.as_search_key verified.monitoring_data =
      (some updated.aci, rest)) ∧
    updated.e164.isSome = e164.isSome ∧
    updated.username_hash.isSome = username_hash.isSome ∧
    updated.last_tree_head = (verified.tree_head, verified.tree_root) := by
  unfold monitor_unpack at h
  split at h
  · exact Except.noConfusion h
  · rename_i aci_data rest1 hrem
    split at h
    · split at h
      · simp only [Except.ok.injEq] at h
        subst h
        exact ⟨⟨rest1, hrem⟩, rfl, rfl, rfl⟩
      · rename_i unh
        split at h
        · exact Except.noConfusion h
        · rename_i unh_data rest2 hrem2
          simp only [Except.ok.injEq] at h
          subst h
          exact ⟨⟨rest1, hrem⟩, rfl, rfl, rfl⟩
    · rename_i e
      split at h
      · exact Except.noConfusion h
      · rename_i e164_data rest2 hrem2
        split at h
        · simp only [Except.ok.injEq] at h
          subst h
          exact ⟨⟨rest1, hrem⟩, rfl, rfl, rfl⟩
        · rename_i unh
          split at h
          · exact Except.noConfusion h
          · rename_i unh_data rest3 hrem3
            simp only [Except.ok.injEq] at h
            subst h
            exact ⟨⟨rest1, hrem⟩, rfl, rfl, rfl⟩

/-- Any successful monitor call decomposes into: a successfully
assembled verifier input, a successful primitive verification, and a
successful unpack of the verified state update. -/
theorem monitor_ok_decompose (kt : Kt) (aci : Aci) (e164 : Option E164)
    (username_hash : Option UsernameHash) (account_data : AccountData)
    (ldth : LastTreeHead) (updated : AccountData)
    (h : Kt.monitor kt aci e164 username_hash account_data ldth =
      .ok updated) :
    ∃ (cmr : TypedMonitorResponse)
      (trip : MonitorRequest × MonitorResponse × MonitorContext)
      (verified : MonitorStateUpdate),
      monitor_assemble aci e164 username_hash account_data ldth cmr =
        .ok trip ∧
      kt.inner.verify_monitor trip.1 trip.2.1 trip.2.2 kt.now =
        .ok verified ∧
      monitor_unpack aci e164 username_hash verified = .ok updated := by
  unfold Kt.monitor at h
  cases hreq : RawChatMonitorRequest.new kt.codec aci e164 username_hash
      account_data ldth.1.tree_size with
  | error e =>
    simp only [hreq] at h
    exact Except.noConfusion h
  | ok raw_request =>
    simp only [hreq] at h
    cases hsend : kt.send (raw_request.to_chat_request kt.codec) with
    | error e =>
      simp only [hsend] at h
      exact Except.noConfusion h
    | ok response =>
      simp only [hsend] at h
      cases hdec : decode_chat_response kt.codec kt.codec.proto_decode_monitor
          response with
      | error e =>
        simp only [hdec] at h
        exact Except.noConfusion h
      | ok untyped =>
        simp only [hdec] at h
        cases hty : TypedMonitorResponse.from_untyped e164.isSome
            username_hash.isSome untyped with
        | error e =>
          simp only [hty] at h
          exact Except.noConfusion h
        | ok cmr =>
          simp only [hty] at h
          unfold monitor_inner at h
          cases hasm : monitor_assemble aci e164 username_hash account_data
              ldth cmr with
          | error e =>
            simp only [hasm] at h
            exact Except.noConfusion h
          | ok trip =>
            simp only [hasm] at h
            obtain ⟨req, resp, ctx⟩ := trip
            cases hvm : kt.inner.verify_monitor req resp ctx kt.now with
            | error e =>
              simp only [hvm] at h
              exact Except.noConfusion h
            | ok verified =>
              simp only [hvm] at h
              exact ⟨cmr, (req, resp, ctx), verified, hasm, hvm, h⟩

/-- Modelled from the spec (§4.7 step 5 and §8 invariant 5; the
primitive `verify_monitor` lives in `libsignal_keytrans`, not under
src/): a successful primitive monitor verification never shrinks the
tree relative to the context's last tree head, and preserves the stored
log position `pos` of every search key present in the context's
monitoring data. -/
def MonitorVerifierContract
    (vm : MonitorRequest → MonitorResponse → MonitorContext → Nat →
      Except VerifyError MonitorStateUpdate) : Prop :=
  ∀ req resp ctx now upd, vm req resp ctx now = .ok upd →
    (∀ lth, ctx.last_tree_head = some lth →
      lth.1.tree_size ≤ upd.tree_head.tree_size) ∧
    (∀ key md md', alist_lookup key ctx.data = some md →
      alist_lookup key upd.monitoring_data = some md' → md'.pos = md.pos)

/-- Claim C4: for every monitor call that returns Ok under a primitive
verifier honouring the spec's contract, the updated last tree head's
size is at least the prior one's (a shrinking tree is never accepted as
Ok), and when it grew the updated ACI monitoring data keeps the prior
`pos`; moreover any failure of the primitive verifier surfaces as
`VerificationFailed`. -/
theorem C4_monitor_monotonicity :
    (∀ (kt : Kt) (aci : Aci) (e164 : Option E164)
        (username_hash : Option UsernameHash) (account_data : AccountData)
        (ldth : LastTreeHead) (updated : AccountData),
      MonitorVerifierContract kt.inner.verify_monitor →
      Kt.monitor kt aci e164 username_hash account_data ldth = .ok updated →
      account_data.last_tree_head.1.tree_size ≤
        updated.last_tree_head.1.tree_size ∧
      (account_data.last_tree_head.1.tree_size <
          updated.last_tree_head.1.tree_size →
        updated.aci.pos = account_data.aci.pos)) ∧
    (∀ (kt : Kt) (aci : Aci) (e164 : Option E164)
        (username_hash : Option UsernameHash) (account_data : AccountData)
        (ldth : LastTreeHead) (cmr : TypedMonitorResponse)
        (req : MonitorRequest) (resp : MonitorResponse) (ctx : MonitorContext)
        (e : VerifyError),
      monitor_assemble aci e164 username_hash account_data ldth cmr =
        .ok (req, resp, ctx) →
      kt.inner.verify_monitor req resp ctx kt.now = .error e →
      monitor_inner kt aci e164 username_hash account_data ldth cmr =
        .error (.verificationFailed e)) := by
  constructor
  · intro kt aci e164 unh acct ldth updated hcontract h
    obtain ⟨cmr, trip, verified, hasm, hvm, hunp⟩ :=
      monitor_ok_decompose kt aci e164 unh acct ldth updated h
    obtain ⟨hctx_lth, hctx_lookup⟩ :=
      monitor_assemble_ok_shape aci e164 unh acct ldth cmr trip hasm
    obtain ⟨⟨rest, hrem⟩, _, _, hlth⟩ :=
      monitor_unpack_ok_shape aci e164 unh verified updated hunp
    have hlup := alist_remove_fst_lookup aci.as_search_key
      verified.monitoring_data updated.aci rest hrem
    obtain ⟨hmono, hpos⟩ := hcontract trip.1 trip.2.1 trip.2.2 kt.now
      verified hvm
    constructor
    · have hle := hmono acct.last_tree_head hctx_lth
      rw [hlth]
      exact hle
    · intro _
      exact hpos aci.as_search_key acct.aci updated.aci hctx_lookup hlup
  · intro kt aci e164 unh acct ldth cmr req resp ctx e hasm hvm
    unfold monitor_inner
    simp only [hasm, hvm]

/-- The account data produced by the fixture monitor run (tree advanced
from size 4 to size 6, ACI monitoring data carried over). -/
def fixUpdatedAcct : AccountData :=
  { aci := fixMd
    e164 := none
    username_hash := none
    last_tree_head := ({ tree_size := 6, timestamp := 0, signature := [] }, [9]) }

/-- The fixture monitor verifier honours the spec contract: it only
accepts contexts whose last tree head is at most its fixed new size 6,
and echoes the context's monitoring data. -/
theorem fixVerifier_contract :
    MonitorVerifierContract fixVerifier.verify_monitor := by
  intro req resp ctx now upd h
  simp only [fixVerifier] at h
  split at h
  · rename_i lth0 heq
    split at h
    · rename_i hsize
      simp only [Except.ok.injEq] at h
      subst h
      constructor
      · intro lth hl
        rw [heq] at hl
        injection hl with hl
        subst hl
        exact hsize
      · intro key md md' h1 h2
        rw [h1] at h2
        injection h2 with h2
        rw [← h2]
    · exact Except.noConfusion h
  · rename_i heq
    simp only [Except.ok.injEq] at h
    subst h
    constructor
    · intro lth hl
      rw [heq] at hl
      exact Option.noConfusion hl
    · intro key md md' h1 h2
      rw [h1] at h2
      injection h2 with h2
      rw [← h2]

/-- Claim C4 witness: the concrete fixture monitor run advances the
tree from size 4 to size 6 and keeps the ACI's position. -/
theorem C4_witness :
    fixAcct.last_tree_head.1.tree_size ≤
      fixUpdatedAcct.last_tree_head.1.tree_size ∧
    (fixAcct.last_tree_head.1.tree_size <
        fixUpdatedAcct.last_tree_head.1.tree_size →
      fixUpdatedAcct.aci.pos = fixAcct.aci.pos) :=
  C4_monitor_monotonicity.1 fixKtSameRoot fixAci none none fixAcct fixLth
    fixUpdatedAcct fixVerifier_contract rfl

/-- Claim C10: the account data returned by a successful monitor call is
unpacked from the verified state-update map by each identity's search
key (the ACI entry always comes from the ACI's search key, and the
optional entries are present exactly when requested); a missing entry
for a requested identity yields `InvalidResponse` with the literal
message "ACI monitoring data is missing", "E.164 monitoring data is
missing" or "username hash monitoring data is missing" respectively. -/
theorem C10_monitor_unpack (aci : Aci) :
    (∀ (e164 : Option E164) (username_hash : Option UsernameHash)
        (verified : MonitorStateUpdate),
      (alist_remove aci.as_search_key verified.monitoring_data).1 = none →
      monitor_unpack aci e164 username_hash verified =
        .error (.invalidResponse "ACI monitoring data is missing")) ∧
    (∀ (e : E164) (username_hash : Option UsernameHash)
        (verified : MonitorStateUpdate) (aci_data : MonitoringData)
        (rest1 : List (Bytes × MonitoringData)),
      alist_remove aci.as_search_key verified.monitoring_data =
        (some aci_data, rest1) →
      (alist_remove e.as_search_key rest1).1 = none →
      monitor_unpack aci (some e) username_hash verified =
        .error (.invalidResponse "E.164 monitoring data is missing")) ∧
    (∀ (unh : UsernameHash) (verified : MonitorStateUpdate)
        (aci_data : MonitoringData) (rest1 : List (Bytes × MonitoringData)),
      alist_remove aci.as_search_key verified.monitoring_data =
        (some aci_data, rest1) →
      (alist_remove unh.as_search_key rest1).1 = none →
      monitor_unpack aci none (some unh) verified =
        .error (.invalidResponse "username hash monitoring data is missing")) ∧
    (∀ (e : E164) (unh : UsernameHash) (verified : MonitorStateUpdate)
        (aci_data : MonitoringData) (rest1 : List (Bytes × MonitoringData))
        (e164_data : MonitoringData) (rest2 : List (Bytes × MonitoringData)),
      alist_remove aci.as_search_key verified.monitoring_data =
        (some aci_data, rest1) →
      alist_remove e.as_search_key rest1 = (some e164_data, rest2) →
      (alist_remove unh.as_search_key rest2).1 = none →
      monitor_unpack aci (some e) (some unh) verified =
        .error (.invalidResponse "username hash monitoring data is missing")) ∧
    (∀ (e164 : Option E164) (username_hash : Option UsernameHash)
        (verified : MonitorStateUpdate) (updated : AccountData),
      monitor_unpack aci e164 username_hash verified = .ok updated →
      (∃ rest, alist_remove aci.as_search_key verified.monitoring_data =
        (some updated.aci, rest)) ∧
      updated.e164.isSome = e164.isSome ∧
      updated.username_hash.isSome = username_hash.isSome ∧
      updated.last_tree_head = (verified.tree_head, verified.tree_root)) ∧
    (∀ (kt : Kt) (e164 : Option E164) (username_hash : Option UsernameHash)
        (account_data : AccountData) (ldth : LastTreeHead)
        (updated : AccountData),
      Kt.monitor kt aci e164 username_hash account_data ldth = .ok updated →
      ∃ verified, monitor_unpack aci e164 username_hash verified =
        .ok updated) := by
  refine ⟨?_, ?_, ?_, ?_, ?_, ?_⟩
  · intro e164 unh verified h
    unfold monitor_unpack
    cases hrem : alist_remove aci.as_search_key verified.monitoring_data with
    | mk found rest =>
      rw [hrem] at h
      have hf : found = none := h
      subst hf
      rfl
  · intro e unh verified aci_data rest1 hrem1 h2
    unfold monitor_unpack
    simp only [hrem1]
    cases hrem2 : alist_remove e.as_search_key rest1 with
    | mk found2 rest2 =>
      rw [hrem2] at h2
      have hf : found2 = none := h2
      subst hf
      rfl
  · intro unh verified aci_data rest1 hrem1 h2
    unfold monitor_unpack
    simp only [hrem1]
    cases hrem2 : alist_remove unh.as_search_key rest1 with
    | mk found2 rest2 =>
      rw [hrem2] at h2
      have hf : found2 = none := h2
      subst hf
      rfl
  · intro e unh verified aci_data rest1 e164_data rest2 hrem1 hrem2 h3
    unfold monitor_unpack
    simp only [hrem1, hrem2]
    cases hrem3 : alist_remove unh.as_search_key rest2 with
    | mk found3 rest3 =>
      rw [hrem3] at h3
      have hf : found3 = none := h3
      subst hf
      rfl
  · intro e164 unh verified updated h
    exact monitor_unpack_ok_shape aci e164 unh verified updated h
  · intro kt e164 unh acct ldth updated h
    obtain ⟨cmr, trip, verified, _, _, hunp⟩ :=
      monitor_ok_decompose kt aci e164 unh acct ldth updated h
    exact ⟨verified, hunp⟩

/-- Claim C10 witness: with a concrete verified state update whose map
is empty, the unpack step reports the ACI monitoring data as missing. -/
theorem C10_witness :
    monitor_unpack fixAci none none
        { tree_head := { tree_size := 6, timestamp := 0, signature := [] }
          tree_root := [9]
          monitoring_data := [] } =
      .error (.invalidResponse "ACI monitoring data is missing") :=
  (C10_monitor_unpack fixAci).1 none none
    { tree_head := { tree_size := 6, timestamp := 0, signature := [] }
      tree_root := [9]
      monitoring_data := [] } rfl

/-! ### Helper lemmas for the search result shape -/

/-- Mapping does not change presence of an optional value. -/
theorem option_isSome_map {α β : Type} (f : α → β) (o : Option α) :
    (o.map f).isSome = o.isSome := by
  cases o <;> rfl

/-- The optional verification step produces a result exactly when the
identity was requested. -/
theorem verify_optional_isSome (kt : KeyTransparency)
    (search_key : Option Bytes)
    (response : Option CondensedTreeSearchResponse) (msg : String)
    (md : Option MonitoringData) (fth : FullTreeHead)
    (slth ldth : Option LastTreeHead) (now : Nat)
    (o : Option VerifiedSearchResult)
    (h : verify_optional_search_response kt search_key response msg md fth
      slth ldth now = .ok o) : o.isSome = search_key.isSome := by
  unfold verify_optional_search_response both_or_neither at h
  cases search_key with
  | none =>
    cases response with
    | none =>
      have h2 : (Except.ok (none : Option VerifiedSearchResult) :
          Except Error (Option VerifiedSearchResult)) = .ok o := h
      injection h2 with h3
      rw [← h3]
      rfl
    | some r => exact Except.noConfusion h
  | some key =>
    cases response with
    | none => exact Except.noConfusion h
    | some r =>
      cases hv : verify_single_search_response kt key r md fth slth ldth
          now with
      | error e =>
        simp only [hv] at h
        exact Except.noConfusion h
      | ok v =>
        simp only [hv] at h
        have h2 : (Except.ok (some v) :
            Except Error (Option VerifiedSearchResult)) = .ok o := h
        injection h2 with h3
        rw [← h3]
        rfl

/-- The optional ACI extraction step preserves presence. -/
theorem extract_optional_aci_isSome (r : Option VerifiedSearchResult)
    (o : Option Aci) (h : extract_optional_aci r = .ok o) :
    o.isSome = r.isSome := by
  unfold extract_optional_aci at h
  cases r with
  | none =>
    have h2 : (Except.ok (none : Option Aci) : Except Error (Option Aci)) =
        .ok o := h
    injection h2 with h3
    rw [← h3]
    rfl
  | some vr =>
    cases hx : extract_value_as SearchValue.to_aci vr with
    | error e =>
      simp only [hx] at h
      exact Except.noConfusion h
    | ok a =>
      simp only [hx] at h
      have h2 : (Except.ok (some a) : Except Error (Option Aci)) = .ok o := h
      injection h2 with h3
      rw [← h3]
      rfl

/-- Shape of every successful `verify_chat_search_response`: the
optional extracted ACIs are present exactly when the identities were
requested, the timestamp is the supplied clock value, and the stored
last tree head is exactly the ACI sub-result's verified state update. -/
theorem verify_chat_search_ok_shape (kt : KeyTransparency) (c : Codec)
    (aci : Aci) (e164 : Option E164) (username_hash : Option UsernameHash)
    (stored : Option AccountData) (resp : TypedSearchResponse)
    (ldth : Option LastTreeHead) (now : Nat) (result : SearchResult)
    (hok : verify_chat_search_response kt c aci e164 username_hash stored resp
      ldth now = .ok result) :
    result.aci_for_e164.isSome = e164.isSome ∧
    result.aci_for_username_hash.isSome = username_hash.isSome ∧
    result.timestamp = now ∧
    (∃ r0 : VerifiedSearchResult,
      verify_single_search_response kt aci.as_search_key
        resp.aci_search_response (unpack_account_data stored).1
        resp.full_tree_head (unpack_account_data stored).2.2.2 ldth now =
        .ok r0 ∧
      result.account_data.last_tree_head =
        some { tree_head := some r0.state_update.tree_head
               root := r0.state_update.tree_root }) := by
  unfold verify_chat_search_response at hok
  rcases hunp : unpack_account_data stored with ⟨amd, emd, umd, slth⟩
  simp only [hunp] at hok
  cases h0 : verify_single_search_response kt aci.as_search_key
      resp.aci_search_response amd resp.full_tree_head slth ldth now with
  | error e =>
    simp only [h0] at hok
    exact Except.noConfusion hok
  | ok aci_result =>
    simp only [h0] at hok
    cases h1 : verify_optional_search_response kt (e164.map E164.as_search_key)
        resp.e164_search_response "E.164 request/response mismatch" emd
        resp.full_tree_head slth ldth now with
    | error e =>
      simp only [h1] at hok
      exact Except.noConfusion hok
    | ok e164_result =>
      simp only [h1] at hok
      cases h2 : verify_optional_search_response kt
          (username_hash.map UsernameHash.as_search_key)
          resp.username_hash_search_response
          "Username hash request/response mismatch" umd resp.full_tree_head
          slth ldth now with
      | error e =>
        simp only [h2] at hok
        exact Except.noConfusion hok
      | ok username_hash_result =>
        simp only [h2] at hok
        split at hok
        · exact Except.noConfusion hok
        · cases hidk : extract_value_as (SearchValue.to_identity_key c)
              aci_result with
          | error e =>
            simp only [hidk] at hok
            exact Except.noConfusion hok
          | ok identity_key =>
            simp only [hidk] at hok
            cases he : extract_optional_aci e164_result with
            | error e =>
              simp only [he] at hok
              exact Except.noConfusion hok
            | ok aci_for_e164 =>
              simp only [he] at hok
              cases hu : extract_optional_aci username_hash_result with
              | error e =>
                simp only [hu] at hok
                exact Except.noConfusion hok
              | ok aci_for_username_hash =>
                simp only [hu] at hok
                simp only [Except.ok.injEq] at hok
                subst hok
                refine ⟨?_, ?_, rfl, ?_⟩
                · rw [extract_optional_aci_isSome e164_result aci_for_e164 he,
                    verify_optional_isSome kt (e164.map E164.as_search_key)
                      resp.e164_search_response
                      "E.164 request/response mismatch" emd
                      resp.full_tree_head slth ldth now e164_result h1,
                    option_isSome_map]
                · rw [extract_optional_aci_isSome username_hash_result
                      aci_for_username_hash hu,
                    verify_optional_isSome kt
                      (username_hash.map UsernameHash.as_search_key)
                      resp.username_hash_search_response
                      "Username hash request/response mismatch" umd
                      resp.full_tree_head slth ldth now username_hash_result
                      h2,
                    option_isSome_map]
                · exact ⟨aci_result, rfl, rfl⟩

/-- Claim C9: the shape of every successful search result matches the
request exactly — `aci_for_e164` is present iff an E164 was passed,
`aci_for_username_hash` is present iff a username hash was passed, the
stored `last_tree_head` is always present and taken from the ACI
sub-result's state update, and the timestamp is the single wall-clock
instant the driver captured after decoding and passed to
verification. -/
theorem C9_search_result_shape :
    (∀ (kt : KeyTransparency) (c : Codec) (aci : Aci) (e164 : Option E164)
        (username_hash : Option UsernameHash) (stored : Option AccountData)
        (resp : TypedSearchResponse) (ldth : Option LastTreeHead) (now : Nat)
        (result : SearchResult),
      verify_chat_search_response kt c aci e164 username_hash stored resp ldth
        now = .ok result →
      result.aci_for_e164.isSome = e164.isSome ∧
      result.aci_for_username_hash.isSome = username_hash.isSome ∧
      result.timestamp = now ∧
      (∃ r0 : VerifiedSearchResult,
        verify_single_search_response kt aci.as_search_key
          resp.aci_search_response (unpack_account_data stored).1
          resp.full_tree_head (unpack_account_data stored).2.2.2 ldth now =
          .ok r0 ∧
        result.account_data.last_tree_head =
          some { tree_head := some r0.state_update.tree_head
                 root := r0.state_update.tree_root })) ∧
    (∀ (kt : Kt) (aci : Aci) (ik : PublicKey) (e164 : Option (E164 × Bytes))
        (username_hash : Option UsernameHash) (stored : Option AccountData)
        (dth : LastTreeHead) (result : SearchResult),
      Kt.search kt aci ik e164 username_hash stored dth = .ok result →
      result.aci_for_e164.isSome = e164.isSome ∧
      result.aci_for_username_hash.isSome = username_hash.isSome ∧
      result.account_data.last_tree_head.isSome = true ∧
      result.timestamp = kt.now) := by
  constructor
  · intro kt c aci e164 username_hash stored resp ldth now result hok
    exact verify_chat_search_ok_shape kt c aci e164 username_hash stored resp
      ldth now result hok
  · intro kt aci ik e164 username_hash stored dth result hok
    unfold Kt.search at hok
    cases hsend : kt.send ((RawChatSearchRequest.new kt.codec aci ik e164
        username_hash
        (stored.map fun acc_data => acc_data.last_tree_head.1.tree_size)
        dth.1.tree_size).to_chat_request kt.codec) with
    | error e =>
      simp only [hsend] at hok
      exact Except.noConfusion hok
    | ok response =>
      simp only [hsend] at hok
      cases hdec : decode_chat_response kt.codec kt.codec.proto_decode_search
          response with
      | error e =>
        simp only [hdec] at hok
        exact Except.noConfusion hok
      | ok untyped =>
        simp only [hdec] at hok
        cases hty : TypedSearchResponse.from_untyped e164.isSome
            username_hash.isSome untyped with
        | error e =>
          simp only [hty] at hok
          exact Except.noConfusion hok
        | ok resp =>
          simp only [hty] at hok
          obtain ⟨h1, h2, h3, r0, _, hlth⟩ := verify_chat_search_ok_shape
            kt.inner kt.codec aci (e164.map Prod.fst) username_hash stored
            resp (some dth) kt.now result hok
          refine ⟨?_, h2, ?_, h3⟩
          · rw [h1, option_isSome_map]
          · rw [hlth]
            rfl

/-- The result of the concrete fixture search run (equal-roots
verifier, E164 requested, no username hash, no prior account data). -/
def fixSearchResult : SearchResult :=
  { aci_identity_key := { bytes := List.replicate 16 7 }
    aci_for_e164 := some { service_id_binary := List.replicate 16 7 }
    aci_for_username_hash := none
    timestamp := 42
    account_data :=
      { aci := some (StoredMonitoringData.from_monitoring_data fixMd)
        e164 := some (StoredMonitoringData.from_monitoring_data fixMd)
        username_hash := none
        last_tree_head :=
          some { tree_head := some { tree_size := 5, timestamp := 0, signature := [] }
                 root := [9] } } }

/-- Claim C9 witness: a concrete successful search with an E164 and no
username hash yields a result carrying `aci_for_e164`, no
`aci_for_username_hash`, a present last tree head, and the driver's
clock value 42. -/
theorem C9_witness :
    (fixSearchResult.aci_for_e164.isSome = (some (fixE164, [0])).isSome ∧
      fixSearchResult.aci_for_username_hash.isSome =
        (none : Option UsernameHash).isSome ∧
      fixSearchResult.account_data.last_tree_head.isSome = true ∧
      fixSearchResult.timestamp = fixKtSameRoot.now) :=
  C9_search_result_shape.2 fixKtSameRoot fixAci { serialized := [5] }
    (some (fixE164, [0])) none none fixLth fixSearchResult rfl

end Keytrans
